import Mathlib

/-!
Verification of the CHIP-8 interpreter core (`src/chip8.rs`).

The embedding mirrors the source module `chip8`: the `Opcode` enum, the
free function `decode_opcode`, the `Chip8` machine-state struct, and the
methods `Chip8::new`, `Chip8::process_next_opcode` and `Chip8::step`.
Machine integers are modelled as `Nat` with explicit `% 256` where the
source uses `u8` wrapping arithmetic; a Rust `panic!` (a fatal condition)
is modelled as `none` in an `Option`-valued result.
-/

/-- The `Opcode` enum of the source, one constructor per variant, with the
operand fields in the order the source declares them. -/
inductive Opcode where
  | ClearDisplay
  | Return
  | Jump (address : Nat)
  | Call (address : Nat)
  | SkipIfEqual (register value : Nat)
  | SkipIfNotEqual (register value : Nat)
  | SkipIfRegistersEqual (register1 register2 : Nat)
  | SetRegister (register value : Nat)
  | AddConstant (register value : Nat)
  | CopyRegister (source target : Nat)
  | BitOr (target other : Nat)
  | BitAnd (target other : Nat)
  | BitXor (target other : Nat)
  | AddRegister (target other : Nat)
  | SubtractRegister (target other : Nat)
  | AltSubtractRegister (target other : Nat)
  | LeftShift (target source : Nat)
  | RightShift (target source : Nat)
  | SkipIfRegistersNotEqual (register1 register2 : Nat)
  | SetIndexRegister (value : Nat)
  | OffsetJump (address : Nat)
  | Rand (mask register : Nat)
  | Display (x y height : Nat)
  | SkipIfKeyPressed (key : Nat)
  | SkipIfKeyNotPressed (key : Nat)
  | GetDelayTimer (register : Nat)
  | AwaitKeypress (register : Nat)
  | SetDelayTimer (value : Nat)
  | SetSoundTimer (value : Nat)
  | IncrementIndexRegister (register : Nat)
  | SetIndexToFont (register : Nat)
  | StoreDecimal (register : Nat)
  | MemDump (maxRegister : Nat)
  | MemLoad (maxRegister : Nat)
  deriving DecidableEq

/-- The free function `decode_opcode`: the if-else chain of the source,
branch for branch, with the same masks and operand extractions. -/
def decode_opcode (opcode : Nat) : Option Opcode :=
  -- 0x00E0: Clear screen
  if opcode = 0x00E0 then some .ClearDisplay
  -- 0x00EE: Return
  else if opcode = 0x00EE then some .Return
  -- 0x1nnn: Jump
  else if opcode &&& 0xF000 = 0x1000 then
    some (.Jump (opcode &&& 0x0FFF))
  -- 0x2nnn: Call at address
  else if opcode &&& 0xF000 = 0x2000 then
    some (.Call (opcode &&& 0x0FFF))
  -- 0x3rnn: Skip if register Vr == nn
  else if opcode &&& 0xF000 = 0x3000 then
    some (.SkipIfEqual ((opcode &&& 0x0F00) >>> 8) (opcode &&& 0x00FF))
  -- 0x4rnn: Skip if register Vr != nn
  else if opcode &&& 0xF000 = 0x4000 then
    some (.SkipIfNotEqual ((opcode &&& 0x0F00) >>> 8) (opcode &&& 0x00FF))
  -- 0x5xy0: Skip if register Vx == register Vy (source masks the high nibble only)
  else if opcode &&& 0xF000 = 0x5000 then
    some (.SkipIfRegistersEqual ((opcode &&& 0x0F00) >>> 8) ((opcode &&& 0x00F0) >>> 4))
  -- 0x6rnn: Set register Vr to nn
  else if opcode &&& 0xF000 = 0x6000 then
    some (.SetRegister ((opcode &&& 0x0F00) >>> 8) (opcode &&& 0x00FF))
  -- 0x7rnn: Add value to register
  else if opcode &&& 0xF000 = 0x7000 then
    some (.AddConstant ((opcode &&& 0x0F00) >>> 8) (opcode &&& 0x00FF))
  -- 0x8xy0: Set register Vx's value to register Vy's value
  else if opcode &&& 0xF00F = 0x8000 then
    some (.CopyRegister ((opcode &&& 0x00F0) >>> 4) ((opcode &&& 0x0F00) >>> 8))
  -- 0x8xy1: Bitwise OR on Vx and Vy; result stored in Vx
  else if opcode &&& 0xF00F = 0x8001 then
    some (.BitOr ((opcode &&& 0x0F00) >>> 8) ((opcode &&& 0x00F0) >>> 4))
  -- 0x8xy2: Bitwise AND on Vx and Vy; result stored in Vx
  else if opcode &&& 0xF00F = 0x8002 then
    some (.BitAnd ((opcode &&& 0x0F00) >>> 8) ((opcode &&& 0x00F0) >>> 4))
  -- 0x8xy3: Bitwise XOR on Vx and Vy; result stored in Vx
  else if opcode &&& 0xF00F = 0x8003 then
    some (.BitXor ((opcode &&& 0x0F00) >>> 8) ((opcode &&& 0x00F0) >>> 4))
  -- 0x8xy4: Add Vy to Vx; set VF to 1 if carry, otherwise 0
  else if opcode &&& 0xF00F = 0x8004 then
    some (.AddRegister ((opcode &&& 0x0F00) >>> 8) ((opcode &&& 0x00F0) >>> 4))
  -- 0x8xy5: Subtract Vy from Vx
  else if opcode &&& 0xF00F = 0x8005 then
    some (.SubtractRegister ((opcode &&& 0x0F00) >>> 8) ((opcode &&& 0x00F0) >>> 4))
  -- 0x8xy6: Shift Vy right by one, store result in Vx
  else if opcode &&& 0xF00F = 0x8006 then
    some (.RightShift ((opcode &&& 0x0F00) >>> 8) ((opcode &&& 0x00F0) >>> 4))
  -- 0x8xy7: Subtract Vx from Vy, store result in Vx
  else if opcode &&& 0xF00F = 0x8007 then
    some (.AltSubtractRegister ((opcode &&& 0x0F00) >>> 8) ((opcode &&& 0x00F0) >>> 4))
  -- 0x8xy8: Shift Vy left by one, store result in Vx
  else if opcode &&& 0xF00F = 0x8008 then
    some (.LeftShift ((opcode &&& 0x0F00) >>> 8) ((opcode &&& 0x00F0) >>> 4))
  -- 0x9xy: Skip if registers are not equal (source masks the high nibble only)
  else if opcode &&& 0xF000 = 0x9000 then
    some (.SkipIfRegistersNotEqual ((opcode &&& 0x0F00) >>> 8) ((opcode &&& 0x00F0) >>> 4))
  -- 0xAnnn: Set index register
  else if opcode &&& 0xF000 = 0xA000 then
    some (.SetIndexRegister (opcode &&& 0x0FFF))
  -- 0xBnnn: Offset jump to address nnn + V0
  else if opcode &&& 0xF000 = 0xB000 then
    some (.OffsetJump (opcode &&& 0xFFF))
  -- 0xCxnn: Store the bitwise AND of a random u8 and nn in Vx
  else if opcode &&& 0xF000 = 0xC000 then
    some (.Rand (opcode &&& 0x00FF) ((opcode &&& 0x0F00) >>> 8))
  -- 0xDxyn: Display sprite at coord Vx, Vy and height n
  else if opcode &&& 0xF000 = 0xD000 then
    some (.Display ((opcode &&& 0x0F00) >>> 8) ((opcode &&& 0x00F0) >>> 4) (opcode &&& 0x000F))
  -- 0xEx9E: Skip if key stored in Vx is pressed
  else if opcode &&& 0xF0FF = 0xE09E then
    some (.SkipIfKeyPressed ((opcode &&& 0x0F00) >>> 8))
  -- 0xExA1: Skip if key stored in Vx is not pressed
  else if opcode &&& 0xF0FF = 0xE0A1 then
    some (.SkipIfKeyNotPressed ((opcode &&& 0x0F00) >>> 8))
  -- 0xFx07: Get delay timer value and store in Vx
  else if opcode &&& 0xF0FF = 0xF007 then
    some (.GetDelayTimer ((opcode &&& 0x0F00) >>> 8))
  -- 0xFx0A: Block until a key is pressed; store pressed key in Vx
  else if opcode &&& 0xF0FF = 0xF00A then
    some (.AwaitKeypress ((opcode &&& 0x0F00) >>> 8))
  -- 0xFx15: Set delay timer to Vx
  else if opcode &&& 0xF0FF = 0xF015 then
    some (.SetDelayTimer ((opcode &&& 0x0F00) >>> 8))
  -- 0xFx18: Set sound timer to Vx
  else if opcode &&& 0xF0FF = 0xF018 then
    some (.SetSoundTimer ((opcode &&& 0x0F00) >>> 8))
  -- 0xFx1E: Increment index_register by Vx
  else if opcode &&& 0xF0FF = 0xF01E then
    some (.IncrementIndexRegister ((opcode &&& 0x0F00) >>> 8))
  -- 0xFx29: Set index_register to the index of a font glyph
  else if opcode &&& 0xF0FF = 0xF029 then
    some (.SetIndexToFont ((opcode &&& 0x0F00) >>> 8))
  -- 0xFx33: Store binary-coded repr. of Vx in memory
  else if opcode &&& 0xF0FF = 0xF033 then
    some (.StoreDecimal ((opcode &&& 0x0F00) >>> 8))
  -- 0xFx55: Dump registers to memory
  else if opcode &&& 0xF0FF = 0xF055 then
    some (.MemDump ((opcode &&& 0x0F00) >>> 8))
  -- 0xFx65: Load registers from memory
  else if opcode &&& 0xF0FF = 0xF065 then
    some (.MemLoad ((opcode &&& 0x0F00) >>> 8))
  else none

/-- The `Chip8` machine-state struct of the source. Fixed-length arrays are
modelled as total functions from indices; byte and word fields as `Nat`. -/
structure Chip8 where
  memory : Nat → Nat
  registers : Nat → Nat
  index_register : Nat
  program_counter : Nat
  gfx_memory : Nat → Bool
  delay_timer : Nat
  sound_timer : Nat
  stack : Nat → Nat
  stack_pointer : Nat
  keys : Nat → Bool

/-- `Chip8::new`: the zeroed machine state. -/
def Chip8.new : Chip8 where
  memory := fun _ => 0
  registers := fun _ => 0
  index_register := 0
  program_counter := 0
  gfx_memory := fun _ => false
  delay_timer := 0
  sound_timer := 0
  stack := fun _ => 0
  stack_pointer := 0
  keys := fun _ => false

/-- Store `v` into `registers[i]` (the array store `self.registers[i] = v`). -/
def Chip8.setReg (st : Chip8) (i v : Nat) : Chip8 :=
  { st with registers := fun j => if j = i then v else st.registers j }

/-- Store `v` into `memory[a]` (used to build test states). -/
def Chip8.setMem (st : Chip8) (a v : Nat) : Chip8 :=
  { st with memory := fun b => if b = a then v else st.memory b }

/-- `u8::wrapping_add` on byte values. -/
def wrappingAdd8 (a b : Nat) : Nat := (a + b) % 256

/-- `u8::wrapping_sub` on byte values (`a`, `b` < 256). -/
def wrappingSub8 (a b : Nat) : Nat := (a + 256 - b) % 256

/-- The default program-counter advance `self.program_counter += 2`. -/
def Chip8.advance (st : Chip8) : Chip8 :=
  { st with program_counter := st.program_counter + 2 }

/-- The fetched word: `memory[pc] << 8 | memory[pc + 1]`. -/
def fetchWord (st : Chip8) : Nat :=
  st.memory st.program_counter <<< 8 ||| st.memory (st.program_counter + 1)

/-- The `match decoded_opcode` block of `Chip8::process_next_opcode`, arm for
arm. A `panic!` — the out-of-range register check of every implemented arm,
and the catch-all "unimplemented opcode" arm — is `none`. -/
def executeOpcode (st : Chip8) (op : Opcode) : Option Chip8 :=
  match op with
  | .Jump address => some { st with program_counter := address }
  | .SkipIfEqual register value =>
      if register > 15 then none
      else
        let register_value := st.registers register
        if register_value = value then some st.advance else some st
  | .SkipIfNotEqual register value =>
      if register > 15 then none
      else
        let register_value := st.registers register
        if register_value ≠ value then some st.advance else some st
  | .SkipIfRegistersEqual register1 register2 =>
      if register1 > 15 then none
      else if register2 > 15 then none
      else
        let r1_value := st.registers register1
        let r2_value := st.registers register2
        if r1_value = r2_value then some st.advance else some st
  | .SetRegister register value =>
      if register > 15 then none
      else some (st.setReg register value)
  | .AddConstant register value =>
      if register > 15 then none
      else
        let register_value := st.registers register
        let sum := wrappingAdd8 register_value value
        some (st.setReg register sum)
  | .CopyRegister source target =>
      if target > 15 then none
      else if source > 15 then none
      else some (st.setReg target (st.registers source))
  | .BitOr target other =>
      if target > 15 then none
      else if other > 15 then none
      else some (st.setReg target (st.registers target ||| st.registers other))
  | .BitAnd target other =>
      if target > 15 then none
      else if other > 15 then none
      else some (st.setReg target (st.registers target &&& st.registers other))
  | .BitXor target other =>
      if target > 15 then none
      else if other > 15 then none
      else some (st.setReg target (st.registers target ^^^ st.registers other))
  | .AddRegister target other =>
      if target > 15 then none
      else if other > 15 then none
      else
        let target_value := st.registers target
        let other_value := st.registers other
        -- Unsigned binary arithmetic; overflow means a carry.
        if target_value + other_value < 256 then
          -- No carry.
          some ((st.setReg target (target_value + other_value)).setReg 15 0)
        else
          -- Carry occurred.
          some ((st.setReg target (wrappingAdd8 target_value other_value)).setReg 15 1)
  | .SubtractRegister target other =>
      if target > 15 then none
      else if other > 15 then none
      else
        let target_value := st.registers target
        let other_value := st.registers other
        -- Unsigned binary arithmetic; underflow means a borrow.
        if other_value ≤ target_value then
          -- No borrow.
          some ((st.setReg target (target_value - other_value)).setReg 15 0)
        else
          -- Borrow occurred.
          some ((st.setReg target (wrappingSub8 target_value other_value)).setReg 15 1)
  | .SetIndexRegister value => some { st with index_register := value }
  | _ => none

/-- `Chip8::process_next_opcode`: fetch at the program counter (a fetch with
fewer than two in-range bytes is a fatal index panic), advance the counter by
2, then dispatch the decoded opcode; an undecodable word is not handled at
all, leaving only the advance. -/
def Chip8.process_next_opcode (st : Chip8) : Option Chip8 :=
  if st.program_counter + 1 < 4096 then
    match decode_opcode (fetchWord st) with
    | some decoded_opcode => executeOpcode st.advance decoded_opcode
    | none => some st.advance
  else none

/-- The timer decrement at the end of `Chip8::step`. -/
def tickTimers (st : Chip8) : Chip8 :=
  { st with
    delay_timer := if st.delay_timer > 0 then st.delay_timer - 1 else st.delay_timer
    sound_timer := if st.sound_timer > 0 then st.sound_timer - 1 else st.sound_timer }

/-- `Chip8::step`: process the current instruction, then decrement the timers. -/
def Chip8.step (st : Chip8) : Option Chip8 :=
  st.process_next_opcode.map tickTimers

/-- One row of the mask table of spec section 4.1: a word `w` matches the row
when `w &&& mask = val`, and the row then builds the instruction from the
operand nibbles of `w`. -/
structure MaskRow where
  mask : Nat
  val : Nat
  build : Nat → Opcode

/-- Operand nibble X: the second-highest nibble, a register selector. -/
def nibX (w : Nat) : Nat := (w &&& 0x0F00) >>> 8

/-- Operand nibble Y: the second-lowest nibble, a register selector. -/
def nibY (w : Nat) : Nat := (w &&& 0x00F0) >>> 4

/-- Operand N: the low nibble, a 4-bit immediate. -/
def nibN (w : Nat) : Nat := w &&& 0x000F

/-- Operand NN: the low byte, an 8-bit immediate. -/
def nibNN (w : Nat) : Nat := w &&& 0x00FF

/-- Operand NNN: the low 12 bits, an address. -/
def nibNNN (w : Nat) : Nat := w &&& 0x0FFF

/-- Modelled from the spec: the canonical mask table of section 4.1, row for
row, with the operand-nibble layout the table gives. The `0x5XY0` and
`0x9XY0` rows require the low nibble to be `0` (mask `0xF00F`). -/
def specRows : List MaskRow :=
  [ ⟨0xFFFF, 0x00E0, fun _ => .ClearDisplay⟩,
    ⟨0xFFFF, 0x00EE, fun _ => .Return⟩,
    ⟨0xF000, 0x1000, fun w => .Jump (nibNNN w)⟩,
    ⟨0xF000, 0x2000, fun w => .Call (nibNNN w)⟩,
    ⟨0xF000, 0x3000, fun w => .SkipIfEqual (nibX w) (nibNN w)⟩,
    ⟨0xF000, 0x4000, fun w => .SkipIfNotEqual (nibX w) (nibNN w)⟩,
    ⟨0xF00F, 0x5000, fun w => .SkipIfRegistersEqual (nibX w) (nibY w)⟩,
    ⟨0xF000, 0x6000, fun w => .SetRegister (nibX w) (nibNN w)⟩,
    ⟨0xF000, 0x7000, fun w => .AddConstant (nibX w) (nibNN w)⟩,
    ⟨0xF00F, 0x8000, fun w => .CopyRegister (nibY w) (nibX w)⟩,
    ⟨0xF00F, 0x8001, fun w => .BitOr (nibX w) (nibY w)⟩,
    ⟨0xF00F, 0x8002, fun w => .BitAnd (nibX w) (nibY w)⟩,
    ⟨0xF00F, 0x8003, fun w => .BitXor (nibX w) (nibY w)⟩,
    ⟨0xF00F, 0x8004, fun w => .AddRegister (nibX w) (nibY w)⟩,
    ⟨0xF00F, 0x8005, fun w => .SubtractRegister (nibX w) (nibY w)⟩,
    ⟨0xF00F, 0x8006, fun w => .RightShift (nibX w) (nibY w)⟩,
    ⟨0xF00F, 0x8007, fun w => .AltSubtractRegister (nibX w) (nibY w)⟩,
    ⟨0xF00F, 0x8008, fun w => .LeftShift (nibX w) (nibY w)⟩,
    ⟨0xF00F, 0x9000, fun w => .SkipIfRegistersNotEqual (nibX w) (nibY w)⟩,
    ⟨0xF000, 0xA000, fun w => .SetIndexRegister (nibNNN w)⟩,
    ⟨0xF000, 0xB000, fun w => .OffsetJump (nibNNN w)⟩,
    ⟨0xF000, 0xC000, fun w => .Rand (nibNN w) (nibX w)⟩,
    ⟨0xF000, 0xD000, fun w => .Display (nibX w) (nibY w) (nibN w)⟩,
    ⟨0xF0FF, 0xE09E, fun w => .SkipIfKeyPressed (nibX w)⟩,
    ⟨0xF0FF, 0xE0A1, fun w => .SkipIfKeyNotPressed (nibX w)⟩,
    ⟨0xF0FF, 0xF007, fun w => .GetDelayTimer (nibX w)⟩,
    ⟨0xF0FF, 0xF00A, fun w => .AwaitKeypress (nibX w)⟩,
    ⟨0xF0FF, 0xF015, fun w => .SetDelayTimer (nibX w)⟩,
    ⟨0xF0FF, 0xF018, fun w => .SetSoundTimer (nibX w)⟩,
    ⟨0xF0FF, 0xF01E, fun w => .IncrementIndexRegister (nibX w)⟩,
    ⟨0xF0FF, 0xF029, fun w => .SetIndexToFont (nibX w)⟩,
    ⟨0xF0FF, 0xF033, fun w => .StoreDecimal (nibX w)⟩,
    ⟨0xF0FF, 0xF055, fun w => .MemDump (nibX w)⟩,
    ⟨0xF0FF, 0xF065, fun w => .MemLoad (nibX w)⟩ ]

/-- The rows of `rows` that the word `w` matches. -/
def matchingRows (rows : List MaskRow) (w : Nat) : List MaskRow :=
  rows.filter fun r => w &&& r.mask == r.val

/-- Decoding by a mask table: `some` exactly when the word matches exactly
one row, built with that row's operand layout; `none` otherwise. -/
def tableDecode (rows : List MaskRow) (w : Nat) : Option Opcode :=
  match matchingRows rows w with
  | [r] => some (r.build w)
  | _ => none

/-- Modelled from the spec: the section 4.1 table amended only on its
`0x5XY0` and `0x9XY0` rows — the source keys both families by the high
nibble alone, so their masks become `0xF000` and every low nibble is
accepted. All other rows are those of `specRows`, unchanged. -/
def specRowsAmended : List MaskRow :=
  [ ⟨0xFFFF, 0x00E0, fun _ => .ClearDisplay⟩,
    ⟨0xFFFF, 0x00EE, fun _ => .Return⟩,
    ⟨0xF000, 0x1000, fun w => .Jump (nibNNN w)⟩,
    ⟨0xF000, 0x2000, fun w => .Call (nibNNN w)⟩,
    ⟨0xF000, 0x3000, fun w => .SkipIfEqual (nibX w) (nibNN w)⟩,
    ⟨0xF000, 0x4000, fun w => .SkipIfNotEqual (nibX w) (nibNN w)⟩,
    ⟨0xF000, 0x5000, fun w => .SkipIfRegistersEqual (nibX w) (nibY w)⟩,
    ⟨0xF000, 0x6000, fun w => .SetRegister (nibX w) (nibNN w)⟩,
    ⟨0xF000, 0x7000, fun w => .AddConstant (nibX w) (nibNN w)⟩,
    ⟨0xF00F, 0x8000, fun w => .CopyRegister (nibY w) (nibX w)⟩,
    ⟨0xF00F, 0x8001, fun w => .BitOr (nibX w) (nibY w)⟩,
    ⟨0xF00F, 0x8002, fun w => .BitAnd (nibX w) (nibY w)⟩,
    ⟨0xF00F, 0x8003, fun w => .BitXor (nibX w) (nibY w)⟩,
    ⟨0xF00F, 0x8004, fun w => .AddRegister (nibX w) (nibY w)⟩,
    ⟨0xF00F, 0x8005, fun w => .SubtractRegister (nibX w) (nibY w)⟩,
    ⟨0xF00F, 0x8006, fun w => .RightShift (nibX w) (nibY w)⟩,
    ⟨0xF00F, 0x8007, fun w => .AltSubtractRegister (nibX w) (nibY w)⟩,
    ⟨0xF00F, 0x8008, fun w => .LeftShift (nibX w) (nibY w)⟩,
    ⟨0xF000, 0x9000, fun w => .SkipIfRegistersNotEqual (nibX w) (nibY w)⟩,
    ⟨0xF000, 0xA000, fun w => .SetIndexRegister (nibNNN w)⟩,
    ⟨0xF000, 0xB000, fun w => .OffsetJump (nibNNN w)⟩,
    ⟨0xF000, 0xC000, fun w => .Rand (nibNN w) (nibX w)⟩,
    ⟨0xF000, 0xD000, fun w => .Display (nibX w) (nibY w) (nibN w)⟩,
    ⟨0xF0FF, 0xE09E, fun w => .SkipIfKeyPressed (nibX w)⟩,
    ⟨0xF0FF, 0xE0A1, fun w => .SkipIfKeyNotPressed (nibX w)⟩,
    ⟨0xF0FF, 0xF007, fun w => .GetDelayTimer (nibX w)⟩,
    ⟨0xF0FF, 0xF00A, fun w => .AwaitKeypress (nibX w)⟩,
    ⟨0xF0FF, 0xF015, fun w => .SetDelayTimer (nibX w)⟩,
    ⟨0xF0FF, 0xF018, fun w => .SetSoundTimer (nibX w)⟩,
    ⟨0xF0FF, 0xF01E, fun w => .IncrementIndexRegister (nibX w)⟩,
    ⟨0xF0FF, 0xF029, fun w => .SetIndexToFont (nibX w)⟩,
    ⟨0xF0FF, 0xF033, fun w => .StoreDecimal (nibX w)⟩,
    ⟨0xF0FF, 0xF055, fun w => .MemDump (nibX w)⟩,
    ⟨0xF0FF, 0xF065, fun w => .MemLoad (nibX w)⟩ ]

/-- First-match decoding by a mask table: the row order decides ties. On a
pairwise-separated table this coincides with `tableDecode`. -/
def firstMatch (rows : List MaskRow) (w : Nat) : Option Opcode :=
  match rows with
  | [] => none
  | r :: rs => if w &&& r.mask = r.val then some (r.build w) else firstMatch rs w

/-- No row of `rows` can match a word together with `r`: the masked values
disagree on the common mask bits. -/
def rowSeparated (r : MaskRow) (rows : List MaskRow) : Bool :=
  rows.all fun s => !(r.val &&& s.mask == s.val &&& r.mask)

/-- Every pair of distinct rows is separated. -/
def pairwiseSeparated : List MaskRow → Bool
  | [] => true
  | r :: rs => rowSeparated r rs && pairwiseSeparated rs

/-- The instruction carries a register-index operand that is out of the
range `[0, 15]`. Operands that the source uses only as register indices
(`value` of the two timer sets, `key`, `max_register`) are included. -/
def regIndexOutOfRange : Opcode → Prop
  | .ClearDisplay => False
  | .Return => False
  | .Jump _ => False
  | .Call _ => False
  | .SkipIfEqual r _ => 15 < r
  | .SkipIfNotEqual r _ => 15 < r
  | .SkipIfRegistersEqual r1 r2 => 15 < r1 ∨ 15 < r2
  | .SetRegister r _ => 15 < r
  | .AddConstant r _ => 15 < r
  | .CopyRegister s t => 15 < s ∨ 15 < t
  | .BitOr t o => 15 < t ∨ 15 < o
  | .BitAnd t o => 15 < t ∨ 15 < o
  | .BitXor t o => 15 < t ∨ 15 < o
  | .AddRegister t o => 15 < t ∨ 15 < o
  | .SubtractRegister t o => 15 < t ∨ 15 < o
  | .AltSubtractRegister t o => 15 < t ∨ 15 < o
  | .LeftShift t s => 15 < t ∨ 15 < s
  | .RightShift t s => 15 < t ∨ 15 < s
  | .SkipIfRegistersNotEqual r1 r2 => 15 < r1 ∨ 15 < r2
  | .SetIndexRegister _ => False
  | .OffsetJump _ => False
  | .Rand _ r => 15 < r
  | .Display x y _ => 15 < x ∨ 15 < y
  | .SkipIfKeyPressed k => 15 < k
  | .SkipIfKeyNotPressed k => 15 < k
  | .GetDelayTimer r => 15 < r
  | .AwaitKeypress r => 15 < r
  | .SetDelayTimer v => 15 < v
  | .SetSoundTimer v => 15 < v
  | .IncrementIndexRegister r => 15 < r
  | .SetIndexToFont r => 15 < r
  | .StoreDecimal r => 15 < r
  | .MemDump m => 15 < m
  | .MemLoad m => 15 < m

theorem matchingRows_eq_nil_of_match {r : MaskRow} {rs : List MaskRow} {w : Nat}
    (hsep : rowSeparated r rs = true) (hc : w &&& r.mask = r.val) :
    matchingRows rs w = [] := by
  rw [matchingRows, List.filter_eq_nil_iff]
  intro s hs
  have hsep' := (List.all_eq_true.mp hsep) s hs
  simp only [Bool.not_eq_true', beq_eq_false_iff_ne, ne_eq] at hsep'
  intro hmatch
  rw [beq_iff_eq] at hmatch
  apply hsep'
  calc r.val &&& s.mask = (w &&& r.mask) &&& s.mask := by rw [hc]
    _ = (w &&& s.mask) &&& r.mask := by
        rw [Nat.and_assoc, Nat.and_comm r.mask s.mask, Nat.and_assoc]
    _ = s.val &&& r.mask := by rw [hmatch]

theorem tableDecode_eq_firstMatch (rows : List MaskRow)
    (hsep : pairwiseSeparated rows = true) (w : Nat) :
    tableDecode rows w = firstMatch rows w := by
  induction rows with
  | nil => rfl
  | cons r rs ih =>
    simp only [pairwiseSeparated, Bool.and_eq_true] at hsep
    by_cases hc : w &&& r.mask = r.val
    · have h1 : matchingRows (r :: rs) w = [r] := by
        rw [matchingRows, List.filter_cons]
        simp only [beq_iff_eq, hc, if_pos]
        have := matchingRows_eq_nil_of_match hsep.1 hc
        rw [matchingRows] at this
        simp [this]
      rw [tableDecode, h1, firstMatch, if_pos hc]
    · have h1 : matchingRows (r :: rs) w = matchingRows rs w := by
        rw [matchingRows, matchingRows, List.filter_cons]
        simp [hc]
      rw [tableDecode, h1, firstMatch, if_neg hc, ← ih hsep.2, tableDecode]

theorem specRowsAmended_separated : pairwiseSeparated specRowsAmended = true := by decide

theorem land_FFFF_of_lt {w : Nat} (h : w < 65536) : w &&& 0xFFFF = w := by
  have h2 := Nat.and_pow_two_sub_one_eq_mod w 16
  norm_num at h2
  omega

theorem decode_opcode_eq_firstMatch (w : Nat) (h : w < 65536) :
    decode_opcode w = firstMatch specRowsAmended w := by
  have hf : w &&& 0xFFFF = w := land_FFFF_of_lt h
  simp only [specRowsAmended, firstMatch, hf, nibX, nibY, nibN, nibNN, nibNNN]
  rfl

example : decode_opcode 0x19DE = some (.Jump 0x09DE) := by decide
example : decode_opcode 0x3A32 = some (.SkipIfEqual 0xA 0x32) := by decide
example : decode_opcode 0x5AB1 = some (.SkipIfRegistersEqual 0xA 0xB) := by decide
example : decode_opcode 0x8AB9 = none := by decide
example : decode_opcode 0x0123 = none := by decide
example : Chip8.new.step = some (tickTimers Chip8.new.advance) := rfl


/-- Executing any opcode never touches the delay or sound timer: every arm of
the execute match writes registers, the program counter, or the index
register only. -/
theorem executeOpcode_timers (st : Chip8) (op : Opcode) (s : Chip8)
    (h : executeOpcode st op = some s) :
    s.delay_timer = st.delay_timer ∧ s.sound_timer = st.sound_timer := by
  cases op <;>
    first
    | exact Option.noConfusion h
    | (cases Option.some.inj h; exact ⟨rfl, rfl⟩)
    | · simp only [executeOpcode] at h
        split_ifs at h <;>
          first
          | exact Option.noConfusion h
          | (cases Option.some.inj h; exact ⟨rfl, rfl⟩)

/-- Counterexample for claim C2: the word 0x5AB1 matches no row of the section 4.1 mask
table (its 0x5XY0 row requires a zero low nibble), yet the source decoder
returns an instruction for it, so decoding is not `None` on every word that
matches no row. -/
theorem decode_accepts_word_outside_table :
    matchingRows specRows 0x5AB1 = [] ∧
    decode_opcode 0x5AB1 = some (.SkipIfRegistersEqual 10 11) :=
  ⟨rfl, rfl⟩

/-- Claim C2, amended: the decoder is a pure total function on 16-bit words, and
agrees with exactly-one-row decoding over the section 4.1 table amended so
that the 0x5XY0 and 0x9XY0 rows are keyed by the high nibble alone. -/
theorem decode_matches_amended_table (w : Nat) (h : w < 65536) :
    decode_opcode w = tableDecode specRowsAmended w :=
  (decode_opcode_eq_firstMatch w h).trans
    (tableDecode_eq_firstMatch specRowsAmended specRowsAmended_separated w).symm

/-- Witness for C2 at the word 0x3A32. -/
theorem decode_matches_amended_table_witness :
    (0x3A32 : Nat) < 65536 ∧ decode_opcode 0x3A32 = tableDecode specRowsAmended 0x3A32 :=
  ⟨by decide, decode_matches_amended_table 0x3A32 (by decide)⟩

/-- Claim C1, evaluated on the code: the source sets the flag register to 1 when a borrow occurred and to
0 when it did not — the inverse of the documented convention. With
registers[target] = 0x13 and registers[other] = 0xC4 the result is 0x4F with
flag 1 (the claim expects flag 0), and with registers[target] = 0x13,
registers[other] = 0x11 the result is 0x02 with flag 0 (the claim expects
flag 1). -/
theorem subtractRegister_flag_is_borrow :
    decode_opcode 0x8015 = some (.SubtractRegister 0 1) ∧
    (executeOpcode ((Chip8.new.setReg 0 0x13).setReg 1 0xC4) (.SubtractRegister 0 1)).map
      (fun s => (s.registers 0, s.registers 15)) = some (0x4F, 1) ∧
    (executeOpcode ((Chip8.new.setReg 2 0x13).setReg 3 0x11) (.SubtractRegister 2 3)).map
      (fun s => (s.registers 2, s.registers 15)) = some (0x02, 0) :=
  ⟨rfl, rfl, rfl⟩

/-- Claim C3, evaluated on the code: the execute match has no arm for Call or Return, so executing either
is fatal (the catch-all panic), instead of pushing or popping the stack. -/
theorem call_and_return_are_fatal :
    decode_opcode 0x2ABC = some (.Call 0xABC) ∧
    ((Chip8.new.setMem 0 0x2A).setMem 1 0xBC).step = none ∧
    decode_opcode 0x00EE = some .Return ∧
    ((Chip8.new.setMem 0 0x00).setMem 1 0xEE).step = none :=
  ⟨rfl, rfl, rfl, rfl⟩

/-- Counterexample for claim C4: SkipIfRegistersNotEqual (word 0x9AB0) is a skip
instruction whose condition holds here (registers 10 and 11 differ), yet one
step is fatal rather than ending with the program counter advanced by 4. -/
theorem skipIfRegistersNotEqual_is_fatal :
    decode_opcode 0x9AB0 = some (.SkipIfRegistersNotEqual 10 11) ∧
    (((Chip8.new.setMem 0 0x9A).setMem 1 0xB0).setReg 10 1).step = none :=
  ⟨rfl, rfl⟩

/-- Claim C4, amended: the driver advances the program counter by 2 before
dispatching, each of the three implemented skip instructions adds a further
2 exactly when its condition holds, the three remaining skip opcodes
(SkipIfRegistersNotEqual, SkipIfKeyPressed, SkipIfKeyNotPressed) are
unimplemented and fatal when executed, and the 0x3A32 scenario ends with the
counter at 4. -/
theorem step_advances_before_dispatch_and_skips :
    (∀ st : Chip8, st.program_counter + 1 < 4096 →
      st.process_next_opcode =
        match decode_opcode (fetchWord st) with
        | some op => executeOpcode st.advance op
        | none => some st.advance) ∧
    (∀ (st : Chip8) (r v : Nat), r ≤ 15 →
      executeOpcode st (.SkipIfEqual r v) =
        some (if st.registers r = v then st.advance else st)) ∧
    (∀ (st : Chip8) (r v : Nat), r ≤ 15 →
      executeOpcode st (.SkipIfNotEqual r v) =
        some (if st.registers r ≠ v then st.advance else st)) ∧
    (∀ (st : Chip8) (r1 r2 : Nat), r1 ≤ 15 → r2 ≤ 15 →
      executeOpcode st (.SkipIfRegistersEqual r1 r2) =
        some (if st.registers r1 = st.registers r2 then st.advance else st)) ∧
    (∀ (st : Chip8) (r1 r2 : Nat),
      executeOpcode st (.SkipIfRegistersNotEqual r1 r2) = none) ∧
    (∀ (st : Chip8) (k : Nat), executeOpcode st (.SkipIfKeyPressed k) = none) ∧
    (∀ (st : Chip8) (k : Nat), executeOpcode st (.SkipIfKeyNotPressed k) = none) ∧
    ((((Chip8.new.setMem 0 0x3A).setMem 1 0x32).setReg 10 0x32).step.map
      (fun s => s.program_counter) = some 4) := by
  refine ⟨?_, ?_, ?_, ?_, fun st r1 r2 => rfl, fun st k => rfl, fun st k => rfl, rfl⟩
  · intro st h
    rw [Chip8.process_next_opcode, if_pos h]
  · intro st r v hr
    simp only [executeOpcode]
    rw [if_neg (by omega : ¬r > 15)]
    by_cases hc : st.registers r = v
    · rw [if_pos hc, if_pos hc]
    · rw [if_neg hc, if_neg hc]
  · intro st r v hr
    simp only [executeOpcode]
    rw [if_neg (by omega : ¬r > 15)]
    by_cases hc : st.registers r = v
    · rw [if_neg (by simp [hc]), if_neg (by simp [hc])]
    · rw [if_pos hc, if_pos hc]
  · intro st r1 r2 h1 h2
    simp only [executeOpcode]
    rw [if_neg (by omega : ¬r1 > 15), if_neg (by omega : ¬r2 > 15)]
    by_cases hc : st.registers r1 = st.registers r2
    · rw [if_pos hc, if_pos hc]
    · rw [if_neg hc, if_neg hc]

/-- Witness for C4 on concrete states and operands. -/
theorem step_advances_before_dispatch_and_skips_witness :
    Chip8.new.process_next_opcode =
      (match decode_opcode (fetchWord Chip8.new) with
        | some op => executeOpcode Chip8.new.advance op
        | none => some Chip8.new.advance) ∧
    executeOpcode Chip8.new (.SkipIfEqual 3 0) =
      some (if Chip8.new.registers 3 = 0 then Chip8.new.advance else Chip8.new) :=
  ⟨step_advances_before_dispatch_and_skips.1 Chip8.new (by decide),
   step_advances_before_dispatch_and_skips.2.1 Chip8.new 3 0 (by decide)⟩

/-- Claim C5: register-register add stores the sum modulo 256 in the target and
then writes the carry (1 when the unsigned sum exceeds 255, else 0) into the
flag register; the spec's two concrete cases evaluate as stated. -/
theorem addRegister_sum_and_carry :
    (∀ (st : Chip8) (t o : Nat), t ≤ 15 → o ≤ 15 →
      executeOpcode st (.AddRegister t o) =
        some ((st.setReg t ((st.registers t + st.registers o) % 256)).setReg 15
          (if 255 < st.registers t + st.registers o then 1 else 0))) ∧
    ((executeOpcode ((Chip8.new.setReg 0 0x13).setReg 1 0xC4) (.AddRegister 0 1)).map
      (fun s => (s.registers 0, s.registers 15)) = some (0xD7, 0)) ∧
    ((executeOpcode ((Chip8.new.setReg 0 0xFF).setReg 1 0xD9) (.AddRegister 0 1)).map
      (fun s => (s.registers 0, s.registers 15)) = some (0xD8, 1)) := by
  refine ⟨?_, rfl, rfl⟩
  intro st t o ht ho
  simp only [executeOpcode]
  rw [if_neg (by omega : ¬t > 15), if_neg (by omega : ¬o > 15)]
  by_cases hc : st.registers t + st.registers o < 256
  · rw [if_pos hc, Nat.mod_eq_of_lt hc, if_neg (by omega)]
  · rw [if_neg hc, if_pos (by omega)]
    rfl

/-- Witness for C5 on a concrete state. -/
theorem addRegister_sum_and_carry_witness :
    executeOpcode Chip8.new (.AddRegister 2 3) =
      some ((Chip8.new.setReg 2 ((Chip8.new.registers 2 + Chip8.new.registers 3) % 256)).setReg 15
        (if 255 < Chip8.new.registers 2 + Chip8.new.registers 3 then 1 else 0)) :=
  addRegister_sum_and_carry.1 Chip8.new 2 3 (by decide) (by decide)

/-- Claim C6: a fetched word the decoder maps to None is a no-op — the step is not
fatal and the final state is exactly the default program-counter advance
followed by the timer decrement. -/
theorem undecodable_word_is_noop (st : Chip8) (h : st.program_counter + 1 < 4096)
    (hd : decode_opcode (fetchWord st) = none) :
    st.step = some (tickTimers st.advance) := by
  rw [Chip8.step, Chip8.process_next_opcode, if_pos h, hd]
  rfl

/-- Witness for C6: the zeroed machine fetches the word 0x0000, which
decodes to None. -/
theorem undecodable_word_is_noop_witness :
    Chip8.new.program_counter + 1 < 4096 ∧
    decode_opcode (fetchWord Chip8.new) = none ∧
    Chip8.new.step = some (tickTimers Chip8.new.advance) :=
  ⟨by decide, rfl, undecodable_word_is_noop Chip8.new (by decide) rfl⟩

/-- Claim C7: an executed instruction carrying a register-index operand greater
than 15 is fatal: execution yields no successor state at all, so the index
is neither clamped nor used to access the register array. -/
theorem out_of_range_register_is_fatal (st : Chip8) (op : Opcode)
    (h : regIndexOutOfRange op) : executeOpcode st op = none := by
  cases op <;>
    first
    | rfl
    | · simp only [regIndexOutOfRange] at h
        all_goals simp only [executeOpcode]
        all_goals split_ifs <;> first | rfl | omega

/-- Witness for C7 at register index 16. -/
theorem out_of_range_register_is_fatal_witness :
    regIndexOutOfRange (.SkipIfEqual 16 0) ∧
    executeOpcode Chip8.new (.SkipIfEqual 16 0) = none :=
  ⟨by simp [regIndexOutOfRange],
   out_of_range_register_is_fatal Chip8.new (.SkipIfEqual 16 0) (by simp [regIndexOutOfRange])⟩

/-- Claim C8: AddConstant wraps modulo 256, and the two-step scenario
[0x60, 0xFF, 0x70, 0x01] ends with registers[0] = 0 and the program counter
at 4. -/
theorem addConstant_wraps :
    (∀ (st : Chip8) (r v : Nat), r ≤ 15 →
      executeOpcode st (.AddConstant r v) =
        some (st.setReg r ((st.registers r + v) % 256))) ∧
    (((((Chip8.new.setMem 0 0x60).setMem 1 0xFF).setMem 2 0x70).setMem 3 0x01).step.bind
      Chip8.step).map (fun s => (s.registers 0, s.program_counter)) = some (0, 4) := by
  refine ⟨?_, rfl⟩
  intro st r v hr
  simp only [executeOpcode]
  rw [if_neg (by omega : ¬r > 15)]
  rfl

/-- Witness for C8 on a concrete state. -/
theorem addConstant_wraps_witness :
    executeOpcode Chip8.new (.AddConstant 5 7) =
      some (Chip8.new.setReg 5 ((Chip8.new.registers 5 + 7) % 256)) :=
  addConstant_wraps.1 Chip8.new 5 7 (by decide)

/-- Counterexample for claim C9: the step operation itself decrements both timers — a
step from delay 30 / sound 19 over a no-op word ends with 29 / 18, so timer
decrement is not decoupled from stepping. -/
theorem step_decrements_timers_example :
    (({ Chip8.new with delay_timer := 30, sound_timer := 19 } : Chip8).step).map
      (fun s => (s.delay_timer, s.sound_timer)) = some (29, 18) :=
  rfl

/-- Claim C9, amended: instruction execution never touches the timers; the step
operation, after processing the opcode, decrements each nonzero timer by one
and leaves zero timers at zero — timer decrement is coupled to the step
cadence. -/
theorem timers_tick_inside_step :
    (∀ (st s : Chip8), st.process_next_opcode = some s →
      s.delay_timer = st.delay_timer ∧ s.sound_timer = st.sound_timer) ∧
    (∀ (st s : Chip8), st.step = some s →
      s.delay_timer = (if 0 < st.delay_timer then st.delay_timer - 1 else st.delay_timer) ∧
      s.sound_timer = (if 0 < st.sound_timer then st.sound_timer - 1 else st.sound_timer)) := by
  have h1 : ∀ (st s : Chip8), st.process_next_opcode = some s →
      s.delay_timer = st.delay_timer ∧ s.sound_timer = st.sound_timer := by
    intro st s h
    rw [Chip8.process_next_opcode] at h
    split_ifs at h with hpc
    cases hd : decode_opcode (fetchWord st) with
    | none =>
      rw [hd] at h
      cases Option.some.inj h
      exact ⟨rfl, rfl⟩
    | some op =>
      rw [hd] at h
      exact executeOpcode_timers st.advance op s h
  refine ⟨h1, ?_⟩
  intro st s h
  rw [Chip8.step] at h
  cases hp : st.process_next_opcode with
  | none => rw [hp] at h; exact Option.noConfusion h
  | some s1 =>
    rw [hp] at h
    cases Option.some.inj h
    obtain ⟨hd, hs⟩ := h1 st s1 hp
    constructor
    · show (if s1.delay_timer > 0 then s1.delay_timer - 1 else s1.delay_timer) = _
      rw [hd]
    · show (if s1.sound_timer > 0 then s1.sound_timer - 1 else s1.sound_timer) = _
      rw [hs]

/-- Witness for C9: one no-op process step preserves the timers, and the
full step from the zeroed state leaves the zero timers at zero. -/
theorem timers_tick_inside_step_witness :
    (Chip8.new.process_next_opcode = some Chip8.new.advance ∧
      Chip8.new.advance.delay_timer = Chip8.new.delay_timer ∧
      Chip8.new.advance.sound_timer = Chip8.new.sound_timer) ∧
    (Chip8.new.step = some (tickTimers Chip8.new.advance) ∧
      (tickTimers Chip8.new.advance).delay_timer =
        (if 0 < Chip8.new.delay_timer then Chip8.new.delay_timer - 1 else Chip8.new.delay_timer)) :=
  ⟨⟨rfl, timers_tick_inside_step.1 Chip8.new Chip8.new.advance rfl⟩,
   ⟨rfl, (timers_tick_inside_step.2 Chip8.new (tickTimers Chip8.new.advance) rfl).1⟩⟩

/-- Counterexample for claim C10: AddConstant with target register 15 does modify the
flag register — adding 1 to register 15 of the zeroed machine leaves
register 15 holding 1. -/
theorem addConstant_writes_flag_when_target_is_15 :
    Chip8.new.registers 15 = 0 ∧
    (executeOpcode Chip8.new (.AddConstant 15 1)).map (fun s => s.registers 15) = some 1 :=
  ⟨rfl, rfl⟩

/-- Claim C10, amended: AddConstant performs no carry write — its only register
write is the wrapped sum into the target, so the flag register is unchanged
whenever the target is not register 15, and every other state component is
unchanged. -/
theorem addConstant_frame (st : Chip8) (r v : Nat) (h : r ≤ 15) :
    ∃ s, executeOpcode st (.AddConstant r v) = some s ∧
      s.registers r = (st.registers r + v) % 256 ∧
      (∀ j, j ≠ r → s.registers j = st.registers j) ∧
      (r ≠ 15 → s.registers 15 = st.registers 15) ∧
      s.memory = st.memory ∧
      s.index_register = st.index_register ∧
      s.program_counter = st.program_counter ∧
      s.gfx_memory = st.gfx_memory ∧
      s.delay_timer = st.delay_timer ∧
      s.sound_timer = st.sound_timer ∧
      s.stack = st.stack ∧
      s.stack_pointer = st.stack_pointer ∧
      s.keys = st.keys := by
  refine ⟨st.setReg r (wrappingAdd8 (st.registers r) v), ?_, ?_, ?_, ?_,
    rfl, rfl, rfl, rfl, rfl, rfl, rfl, rfl, rfl⟩
  · simp only [executeOpcode]
    rw [if_neg (by omega : ¬r > 15)]
  · simp [Chip8.setReg, wrappingAdd8]
  · intro j hj
    simp [Chip8.setReg, hj]
  · intro hr
    simp [Chip8.setReg, Ne.symm hr]

/-- Witness for C10 on a concrete state. -/
theorem addConstant_frame_witness :
    ∃ s, executeOpcode Chip8.new (.AddConstant 3 200) = some s ∧
      s.registers 3 = (Chip8.new.registers 3 + 200) % 256 ∧
      (∀ j, j ≠ 3 → s.registers j = Chip8.new.registers j) ∧
      ((3 : Nat) ≠ 15 → s.registers 15 = Chip8.new.registers 15) ∧
      s.memory = Chip8.new.memory ∧
      s.index_register = Chip8.new.index_register ∧
      s.program_counter = Chip8.new.program_counter ∧
      s.gfx_memory = Chip8.new.gfx_memory ∧
      s.delay_timer = Chip8.new.delay_timer ∧
      s.sound_timer = Chip8.new.sound_timer ∧
      s.stack = Chip8.new.stack ∧
      s.stack_pointer = Chip8.new.stack_pointer ∧
      s.keys = Chip8.new.keys :=
  addConstant_frame Chip8.new 3 200 (by decide)
